import Mathlib

/-!
Shallow embedding of the HX711 bridge-ADC driver (hx711.py) and proofs about
its specification.  Pure data and control flow are translated directly from
the Python source; hardware interaction (pins, timers, sleeps) is modelled as
explicit environment inputs and as Boolean timer state:

* the data pin samples consumed by a read cycle are inputs (`ReadInput`);
* each `machine.Timer` field is modelled by two Booleans: whether the Python
  attribute currently holds a timer object (is not `None`), and whether that
  object is still armed (its `deinit()` has not been called).  This mirrors
  the source's `discard_timer`, whose `timer = None` assignment rebinds only
  the local parameter and leaves the caller's attribute unchanged.

Python floats (`gain`, `dfs`, `value`) are modelled as exact rationals, and
Python's `round` (banker's rounding) as `pyRound` over the rationals.
-/

set_option maxRecDepth 8000

/-- Maximum 24-bit two's-complement value (the HX711 outputs 24 bits). -/
def MAX_RAW : Int := 0x7fffff

/-- Minimum 24-bit two's-complement value. -/
def MIN_RAW : Int := -0x800000

/-- Subtract this from a 24-bit value to extend the sign. -/
def EXTEND_SIGN : Int := 0x1000000

/-- Configuration for Channel A, gain 128. -/
def GAIN_128 : Nat := 0

/-- Configuration for Channel A, gain 64. -/
def GAIN_64 : Nat := 2

/-- Configuration for Channel B, gain 32. -/
def GAIN_32 : Nat := 1

/-- Python 3 `round` on a rational: round half to even (banker's rounding).
The source applies `round` to the float quotient `zeroing_sum / zeros_to_average`;
we model the quotient exactly in the rationals. -/
def pyRound (q : Rat) : Int :=
  let f := ⌊q⌋
  let r := q - (f : Rat)
  if r < 1/2 then f
  else if 1/2 < r then f + 1
  else if f % 2 = 0 then f else f + 1

/-- The driver's status bitset.  The source stores it as an integer with one
bit per named flag (STATUS_INITIALIZING = 1, ..., STATUS_OUT_OF_RANGE = 512);
since the bits are independent we model the bitset as a record of Booleans,
one field per flag, with `STATUS_NOMINAL` (integer 0) corresponding to all
fields `false`. -/
structure Status where
  initializing : Bool := false
  powered_down : Bool := false
  powering_up : Bool := false
  not_settled : Bool := false
  data_not_ready : Bool := false
  data_ready_timeout : Bool := false
  no_data : Bool := false
  dout_stuck_low : Bool := false
  zeroing : Bool := false
  out_of_range : Bool := false
deriving Repr, DecidableEq

/-- `self.status == STATUS_NOMINAL`: the bitset is exactly zero, i.e. every
flag is clear. -/
def Status.isNominal (s : Status) : Bool :=
  !s.initializing && !s.powered_down && !s.powering_up && !s.not_settled &&
  !s.data_not_ready && !s.data_ready_timeout && !s.no_data &&
  !s.dout_stuck_low && !s.zeroing && !s.out_of_range

/-- `discard_timer(timer)`: given (field holds an object, object is armed),
deinit the object if the field is not `None`.  The `timer = None` assignment
in the source rebinds the local parameter only, so the caller's field keeps
holding the (now disarmed) object. -/
def discard_timer : Bool × Bool → Bool × Bool
  | (false, a) => (false, a)
  | (true, _) => (true, false)

/-- One Hx711 driver instance.  Fields are the instance attributes of the
Python class; each timer attribute is split into a field-is-not-None Boolean
and an object-is-armed Boolean as explained in the module comment.  The pin
handles, name, and lock are hardware or bookkeeping objects with no bearing
on the claims and carry no state here; the pin levels enter through the
inputs of the operations instead. -/
structure Hx711 where
  status : Status
  configuration : Nat
  offset : Int
  gain : Rat
  dfs : Rat
  zeros_to_average : Nat
  value : Rat
  zeroing_sum : Int
  values_received : Nat
  data_ready_timer : Bool
  data_ready_timer_armed : Bool
  settled_timer : Bool
  settled_timer_armed : Bool
deriving Repr, DecidableEq

/-- `validate_gain` succeeds (does not raise `ValueError`) exactly on the
three legal configuration codes. -/
def validate_gain (gain : Nat) : Bool :=
  gain == GAIN_128 || gain == GAIN_64 || gain == GAIN_32

/-- `powered_up()`: no initializing, powered-down, or powering-up flag set. -/
def Hx711.powered_up (d : Hx711) : Bool :=
  !(d.status.initializing || d.status.powered_down || d.status.powering_up)

/-- `settled()`: powered up and the not-settled flag is clear. -/
def Hx711.settled (d : Hx711) : Bool :=
  d.powered_up && !d.status.not_settled

/-- `zero_now()`: reset the zero accumulator and the sample counter and set
the zeroing flag. -/
def Hx711.zero_now (d : Hx711) : Hx711 :=
  { d with zeroing_sum := 0,
           status := { d.status with zeroing := true },
           values_received := 0 }

/-- `data_ready()`: `pinLow` is the sampled data line (`self.data() == 0`).
If ready, discard the pending data-ready timer and clear the data-not-ready
and data-ready-timeout flags; otherwise set data-not-ready and, when settled
and the timer attribute is `None`, arm a fresh one-shot timeout timer.
Returns the updated driver and the ready Boolean. -/
def Hx711.data_ready (d : Hx711) (pinLow : Bool) : Hx711 × Bool :=
  let ready := pinLow
  if ready = true then
    let t := discard_timer (d.data_ready_timer, d.data_ready_timer_armed)
    ({ d with data_ready_timer := t.1, data_ready_timer_armed := t.2,
              status := { d.status with data_not_ready := false,
                                        data_ready_timeout := false } },
     true)
  else
    let d := { d with status := { d.status with data_not_ready := true } }
    if d.settled = true ∧ d.data_ready_timer = false then
      ({ d with data_ready_timer := true, data_ready_timer_armed := true }, false)
    else
      (d, false)

/-- `data_ready_timeout(timer)`: the timeout timer callback sets the
data-ready-timeout flag and discards the timer. -/
def Hx711.data_ready_timeout (d : Hx711) : Hx711 :=
  let d := { d with status := { d.status with data_ready_timeout := true } }
  let t := discard_timer (d.data_ready_timer, d.data_ready_timer_armed)
  { d with data_ready_timer := t.1, data_ready_timer_armed := t.2 }

/-- `settled_timeout(timer)`: the settle timer callback clears the
not-settled flag and discards the timer. -/
def Hx711.settled_timeout (d : Hx711) : Hx711 :=
  let d := { d with status := { d.status with not_settled := false } }
  let t := discard_timer (d.settled_timer, d.settled_timer_armed)
  { d with settled_timer := t.1, settled_timer_armed := t.2 }

/-- `wait_data_ready(timeout)`: poll `data_ready()` once per element of
`obs`, the successive data-line samples observed at each 1 ms poll (the list
length plays the role of the timeout argument).  Stops at the first ready
observation. -/
def Hx711.wait_data_ready (d : Hx711) : List Bool → Hx711 × Bool
  | [] => (d, false)
  | p :: ps =>
    let r := d.data_ready p
    if r.2 = true then (r.1, true) else r.1.wait_data_ready ps

/-- The 24-bit shift loop of `read()`: `data <<= 1; data |= bit` over the
successive data-line samples returned by `clock_a_data_bit()`. -/
def shiftIn : List Bool → Nat → Nat
  | [], data => data
  | b :: bs, data => shiftIn bs (2 * data + cond b 1 0)

/-- Sign extension in `read()`: `if data > MAX_RAW: data -= EXTEND_SIGN`. -/
def signExtend (data : Nat) : Int :=
  if MAX_RAW < (data : Int) then (data : Int) - EXTEND_SIGN else (data : Int)

/-- `weighted_average(value)` with the digital filter stability coefficient. -/
def Hx711.weighted_average (d : Hx711) (value : Rat) : Rat :=
  d.value * d.dfs + value * (1 - d.dfs)

/-- The environment consumed by one call to `read()`:
`ready` is the data-line sample of the initial `data_ready()` check
(`true` meaning the line is low, i.e. data is ready); `raw` is the value of
the 24-bit accumulator produced by the shift loop (`shiftIn` of the 24
sampled bits); `bit25` is the data-line sample on the 25th clock pulse. -/
structure ReadInput where
  ready : Bool
  raw : Nat
  bit25 : Bool
deriving Repr, DecidableEq

/-- The zeroing bookkeeping of `read()`: while the counter is below the
target, add the sign-extended reading to the accumulator; else if zeroing is
active and the counter has reached the target, set the offset to the rounded
average (when the target is positive) and clear the zeroing flag; else if
the counter equals `sys.maxsize`, reset it to the target to avoid
re-zeroing on rollover. -/
def Hx711.zeroStep (d : Hx711) (data : Int) (maxsize : Nat) : Hx711 :=
  if d.values_received < d.zeros_to_average then
    { d with zeroing_sum := d.zeroing_sum + data }
  else if d.status.zeroing = true ∧ d.zeros_to_average ≤ d.values_received then
    let d :=
      if 0 < d.zeros_to_average then
        { d with offset :=
            pyRound ((d.zeroing_sum : Rat) / (d.zeros_to_average : Rat)) }
      else d
    { d with status := { d.status with zeroing := false } }
  else if d.values_received = maxsize then
    { d with values_received := d.zeros_to_average }
  else d

/-- The commit at the end of `read()`: only when the whole status bitset is
nominal, scale the offset-corrected count, optionally blend it with the
previous value when the digital filter is enabled and the zero-averaging
window has passed, and store the result in `value`. -/
def Hx711.commitStep (d : Hx711) (data : Int) : Hx711 :=
  if d.status.isNominal = true then
    let dataq := d.gain * ((data : Rat) - (d.offset : Rat))
    let dataq :=
      if 0 < d.dfs ∧ d.dfs < 1 ∧ d.zeros_to_average < d.values_received then
        d.weighted_average dataq
      else dataq
    { d with value := dataq }
  else d

/-- The body guarded by `if self.settled():` in `read()`: zeroing
bookkeeping, counter increment, then the nominal-only commit.  When not
settled the whole block is skipped. -/
def Hx711.settledBlock (d : Hx711) (data : Int) (maxsize : Nat) : Hx711 :=
  if d.settled = true then
    let d := d.zeroStep data maxsize
    let d := { d with values_received := d.values_received + 1 }
    d.commitStep data
  else d

/-- `read()`.  `maxsize` is `sys.maxsize`.  Returns the updated driver, the
Python return value (`some v` for an explicit `return self.value`, `none`
when the function falls off the end and returns `None`), and the number of
clock pulses issued during the call. -/
def Hx711.read (d0 : Hx711) (inp : ReadInput) (maxsize : Nat) :
    Hx711 × Option Rat × Nat :=
  let dr := d0.data_ready inp.ready
  let d := dr.1
  if dr.2 = true then
    let d := { d with status := { d.status with no_data := false } }
    if inp.bit25 = true then
      let d := { d with status := { d.status with dout_stuck_low := false } }
      let data := signExtend inp.raw
      let d :=
        if data = MAX_RAW ∨ data = MIN_RAW then
          { d with status := { d.status with out_of_range := true } }
        else
          { d with status := { d.status with out_of_range := false } }
      (d.settledBlock data maxsize, none, 24 + 1 + d.configuration)
    else
      let d := { d with status := { d.status with dout_stuck_low := true } }
      (d, some d.value, 24 + 1)
  else
    let d := { d with status := { d.status with no_data := true } }
    (d, some d.value, 0)

/-- The environment consumed by `set_gain` when it performs its inner
`wait_data_ready()` and throwaway `read()`. -/
structure PulseEnv where
  waitReadings : List Bool
  readInput : ReadInput
deriving Repr, DecidableEq

/-- `set_gain(gain)`: `none` models the `ValueError` raised on an illegal
code; otherwise `some (driver, changed)`. -/
def Hx711.set_gain (d : Hx711) (gain : Nat) (env : PulseEnv) (maxsize : Nat) :
    Option (Hx711 × Bool) :=
  if validate_gain gain = false then none
  else if gain ≠ d.configuration then
    let d := { d with configuration := gain }
    let d := (d.wait_data_ready env.waitReadings).1
    let d := (d.read env.readInput maxsize).1
    let d := { d with status := { d.status with not_settled := true } }
    let t := discard_timer (d.settled_timer, d.settled_timer_armed)
    let d := { d with settled_timer := t.1, settled_timer_armed := t.2 }
    let d := { d with settled_timer := true, settled_timer_armed := true }
    some (d, true)
  else
    some (d, false)

/-- `power_down()`: set powered-down and not-settled (the clock-line drive
and the 60 microsecond hold act only on the chip, not on driver state). -/
def Hx711.power_down (d : Hx711) : Hx711 :=
  { d with status := { d.status with powered_down := true, not_settled := true } }

/-- `power_up()`: set powering-up and not-settled, begin a new zero-averaging
cycle, clear powered-down, replace the settle timer, call `set_gain()` with
its default argument, and clear powering-up. -/
def Hx711.power_up (d : Hx711) (env : PulseEnv) (maxsize : Nat) : Hx711 :=
  let d := { d with status := { d.status with powering_up := true, not_settled := true } }
  let d := d.zero_now
  let d := { d with status := { d.status with powered_down := false } }
  let t := discard_timer (d.settled_timer, d.settled_timer_armed)
  let d := { d with settled_timer := t.1, settled_timer_armed := t.2 }
  let d := { d with settled_timer := true, settled_timer_armed := true }
  let d :=
    match d.set_gain GAIN_128 env maxsize with
    | some r => r.1
    | none => d
  { d with status := { d.status with powering_up := false } }

/-- `reset()`: power down, then power up. -/
def Hx711.reset (d : Hx711) (env : PulseEnv) (maxsize : Nat) : Hx711 :=
  d.power_down.power_up env maxsize

/-- `__init__(clock_pin_no, data_pin_no, gain)`: `none` models the
`ValueError` raised on an illegal gain code.  The attributes are set as in
the source (`configuration = GAIN_128` regardless of the `gain` argument;
`zeroing_sum` and `values_received` are first created by the `zero_now()`
performed inside `reset()`, so their initial values here are irrelevant),
then `reset()` runs and the initializing flag is cleared. -/
def Hx711.init (gain : Nat) (env : PulseEnv) (maxsize : Nat) : Option Hx711 :=
  if validate_gain gain = false then none
  else
    let d : Hx711 :=
      { status := { initializing := true },
        configuration := GAIN_128,
        offset := 0,
        gain := 1,
        dfs := 0,
        zeros_to_average := 50,
        value := 0,
        zeroing_sum := 0,
        values_received := 0,
        data_ready_timer := false,
        data_ready_timer_armed := false,
        settled_timer := false,
        settled_timer_armed := false }
    let d := d.reset env maxsize
    some { d with status := { d.status with initializing := false } }

/-- Run a sequence of `read()` calls, one per input. -/
def readSeq (d : Hx711) (inps : List ReadInput) (maxsize : Nat) : Hx711 :=
  inps.foldl (fun s i => (s.read i maxsize).1) d

/-- Events for the data-ready timeout protocol: a `data_ready()` call that
samples the data line (`low = true` meaning ready), or the elapse of the
one-shot timeout period, which invokes the `data_ready_timeout` callback
exactly when an armed timer exists. -/
inductive PinEvent where
  | observe (low : Bool)
  | elapsed
deriving Repr, DecidableEq

/-- One step of the data-ready timeout protocol. -/
def Hx711.drStep (d : Hx711) : PinEvent → Hx711
  | .observe low => (d.data_ready low).1
  | .elapsed => if d.data_ready_timer_armed = true then d.data_ready_timeout else d

/-- Run a sequence of data-ready protocol events. -/
def Hx711.runDR (d : Hx711) (evs : List PinEvent) : Hx711 :=
  evs.foldl Hx711.drStep d

/-- A settled, nominal driver with the attribute values established by
`__init__` (offset 0, scale 1, filter off, target 50, no pending timers),
used as the base state of concrete test inputs. -/
def sampleSettled : Hx711 :=
  { status := {},
    configuration := GAIN_128,
    offset := 0,
    gain := 1,
    dfs := 0,
    zeros_to_average := 50,
    value := 0,
    zeroing_sum := 0,
    values_received := 0,
    data_ready_timer := false,
    data_ready_timer_armed := false,
    settled_timer := false,
    settled_timer_armed := false }

/-- The driver state reached by a completed read cycle just before the
settled block: the ready observation discarded the timeout timer and cleared
data-not-ready and data-ready-timeout, then no-data and stuck-low were
cleared and out-of-range was set iff the sign-extended reading sits at a
rail.  This packages the record that `read` builds on its complete path, for
use in the lemmas below. -/
def Hx711.preZero (d : Hx711) (raw : Nat) : Hx711 :=
  { d with
    data_ready_timer := (discard_timer (d.data_ready_timer, d.data_ready_timer_armed)).1,
    data_ready_timer_armed := (discard_timer (d.data_ready_timer, d.data_ready_timer_armed)).2,
    status := { d.status with
      data_not_ready := false, data_ready_timeout := false, no_data := false,
      dout_stuck_low := false,
      out_of_range := decide (signExtend raw = MAX_RAW ∨ signExtend raw = MIN_RAW) } }

theorem read_complete_eq (d : Hx711) (i : ReadInput) (ms : Nat)
    (hr : i.ready = true) (hb : i.bit25 = true) :
    d.read i ms = ((d.preZero i.raw).settledBlock (signExtend i.raw) ms, none, 24 + 1 + d.configuration) := by
  obtain ⟨ir, raw, b25⟩ := i
  simp only at hr hb
  subst hr hb
  unfold Hx711.read Hx711.data_ready Hx711.preZero
  by_cases h : signExtend raw = MAX_RAW ∨ signExtend raw = MIN_RAW
  · simp only [if_pos h, h]
    simp [h]
  · simp only [if_neg h]
    simp [h]

theorem read_stuck_eq (d : Hx711) (i : ReadInput) (ms : Nat)
    (hr : i.ready = true) (hb : i.bit25 = false) :
    d.read i ms =
      ({ d with
          data_ready_timer := (discard_timer (d.data_ready_timer, d.data_ready_timer_armed)).1,
          data_ready_timer_armed := (discard_timer (d.data_ready_timer, d.data_ready_timer_armed)).2,
          status := { d.status with
            data_not_ready := false, data_ready_timeout := false, no_data := false,
            dout_stuck_low := true } },
        some d.value, 24 + 1) := by
  obtain ⟨ir, raw, b25⟩ := i
  simp only at hr hb
  subst hr hb
  rfl

theorem data_ready_false_eq (d : Hx711) :
    d.data_ready false =
      (if ({ d with status := { d.status with data_not_ready := true } } : Hx711).settled = true ∧
            ({ d with status := { d.status with data_not_ready := true } } : Hx711).data_ready_timer = false
       then { d with status := { d.status with data_not_ready := true },
                     data_ready_timer := true, data_ready_timer_armed := true }
       else { d with status := { d.status with data_not_ready := true } },
       false) := by
  simp only [Hx711.data_ready]
  split_ifs <;> first | rfl | simp_all

theorem read_notready (d : Hx711) (i : ReadInput) (ms : Nat)
    (hr : i.ready = false) :
    (d.read i ms).1.value = d.value ∧
    (d.read i ms).1.offset = d.offset ∧
    (d.read i ms).1.zeroing_sum = d.zeroing_sum ∧
    (d.read i ms).1.values_received = d.values_received ∧
    (d.read i ms).1.status.zeroing = d.status.zeroing ∧
    (d.read i ms).1.status.no_data = true ∧
    (d.read i ms).1.configuration = d.configuration ∧
    (d.read i ms).2.1 = some d.value ∧
    (d.read i ms).2.2 = 0 := by
  obtain ⟨ir, raw, b25⟩ := i
  simp only at hr
  subst hr
  simp only [Hx711.read, data_ready_false_eq]
  split_ifs <;>
    first
    | exact ⟨rfl, rfl, rfl, rfl, rfl, rfl, rfl, rfl, rfl⟩
    | simp_all

theorem zeroStep_accum (d : Hx711) (data : Int) (ms : Nat)
    (hv : d.values_received < d.zeros_to_average) :
    d.zeroStep data ms = { d with zeroing_sum := d.zeroing_sum + data } := by
  unfold Hx711.zeroStep
  rw [if_pos hv]

theorem zeroStep_finish (d : Hx711) (data : Int) (ms : Nat)
    (hz : d.status.zeroing = true) (hge : d.zeros_to_average ≤ d.values_received)
    (hN : 0 < d.zeros_to_average) :
    d.zeroStep data ms =
      { d with offset := pyRound ((d.zeroing_sum : Rat) / (d.zeros_to_average : Rat)),
               status := { d.status with zeroing := false } } := by
  unfold Hx711.zeroStep
  rw [if_neg (by omega), if_pos ⟨hz, hge⟩, if_pos hN]

theorem zeroStep_vr_cases (d : Hx711) (data : Int) (ms : Nat) :
    ((d.zeroStep data ms).values_received = d.values_received ∧
      (d.values_received < d.zeros_to_average ∨ d.status.zeroing = true ∨
        d.values_received ≠ ms)) ∨
    ((d.zeroStep data ms).values_received = d.zeros_to_average ∧
      d.values_received = ms ∧ d.status.zeroing = false ∧
      d.zeros_to_average ≤ d.values_received) := by
  unfold Hx711.zeroStep
  split_ifs with h1 h2 h3 h4
  · left; exact ⟨rfl, Or.inl h1⟩
  · left; exact ⟨rfl, Or.inr (Or.inl h2.1)⟩
  · left; exact ⟨rfl, Or.inr (Or.inl h2.1)⟩
  · right
    refine ⟨rfl, h4, ?_, by omega⟩
    by_contra hzz
    simp only [Bool.not_eq_false] at hzz
    exact h2 ⟨hzz, by omega⟩
  · left; exact ⟨rfl, Or.inr (Or.inr h4)⟩

theorem zeroStep_preserves (d : Hx711) (data : Int) (ms : Nat) :
    (d.zeroStep data ms).configuration = d.configuration ∧
    (d.zeroStep data ms).gain = d.gain ∧
    (d.zeroStep data ms).dfs = d.dfs ∧
    (d.zeroStep data ms).zeros_to_average = d.zeros_to_average ∧
    (d.zeroStep data ms).value = d.value ∧
    (d.zeroStep data ms).status.initializing = d.status.initializing ∧
    (d.zeroStep data ms).status.powered_down = d.status.powered_down ∧
    (d.zeroStep data ms).status.powering_up = d.status.powering_up ∧
    (d.zeroStep data ms).status.not_settled = d.status.not_settled ∧
    (d.zeroStep data ms).status.out_of_range = d.status.out_of_range := by
  unfold Hx711.zeroStep
  split_ifs <;> exact ⟨rfl, rfl, rfl, rfl, rfl, rfl, rfl, rfl, rfl, rfl⟩

theorem commitStep_status (d : Hx711) (data : Int) :
    (d.commitStep data).status = d.status := by
  unfold Hx711.commitStep
  split_ifs <;> rfl

theorem commitStep_preserves (d : Hx711) (data : Int) :
    (d.commitStep data).configuration = d.configuration ∧
    (d.commitStep data).offset = d.offset ∧
    (d.commitStep data).zeroing_sum = d.zeroing_sum ∧
    (d.commitStep data).values_received = d.values_received ∧
    (d.commitStep data).zeros_to_average = d.zeros_to_average := by
  unfold Hx711.commitStep
  split_ifs <;> exact ⟨rfl, rfl, rfl, rfl, rfl⟩

theorem commitStep_not_nominal (d : Hx711) (data : Int)
    (h : d.status.isNominal = false) :
    d.commitStep data = d := by
  unfold Hx711.commitStep
  rw [h]
  rfl

theorem commitStep_value_or (d : Hx711) (data : Int) :
    (d.commitStep data).value = d.value ∨ (d.commitStep data).status.isNominal = true := by
  unfold Hx711.commitStep
  split_ifs with h h2
  · right; exact h
  · right; exact h
  · left; rfl

theorem isNominal_false_of_zeroing (s : Status) (h : s.zeroing = true) :
    s.isNominal = false := by
  simp [Status.isNominal, h]

theorem settledBlock_not_settled (d : Hx711) (data : Int) (ms : Nat)
    (h : d.settled = false) :
    d.settledBlock data ms = d := by
  unfold Hx711.settledBlock
  rw [h]
  rfl

theorem settledBlock_settled (d : Hx711) (data : Int) (ms : Nat)
    (h : d.settled = true) :
    d.settledBlock data ms =
      ({ d.zeroStep data ms with
          values_received := (d.zeroStep data ms).values_received + 1 }).commitStep data := by
  unfold Hx711.settledBlock
  rw [if_pos h]

theorem bool_not_true {b : Bool} (h : ¬ b = true) : b = false := by
  cases b <;> simp_all

theorem settledBlock_out_of_range (x : Hx711) (data : Int) (ms : Nat) :
    (x.settledBlock data ms).status.out_of_range = x.status.out_of_range := by
  by_cases hs : x.settled = true
  · rw [settledBlock_settled _ _ _ hs, commitStep_status]
    exact (zeroStep_preserves x data ms).2.2.2.2.2.2.2.2.2
  · rw [settledBlock_not_settled _ _ _ (bool_not_true hs)]

theorem read_value_commit (d : Hx711) (i : ReadInput) (ms : Nat) :
    (d.read i ms).1.value = d.value ∨ (d.read i ms).1.status.isNominal = true := by
  by_cases hr : i.ready = true
  · by_cases hb : i.bit25 = true
    · rw [read_complete_eq d i ms hr hb]
      by_cases hs : (d.preZero i.raw).settled = true
      · rw [settledBlock_settled _ _ _ hs]
        rcases commitStep_value_or
            ({ (d.preZero i.raw).zeroStep (signExtend i.raw) ms with
                values_received :=
                  ((d.preZero i.raw).zeroStep (signExtend i.raw) ms).values_received + 1 })
            (signExtend i.raw) with h | h
        · left
          exact h.trans ((zeroStep_preserves (d.preZero i.raw) (signExtend i.raw) ms).2.2.2.2.1)
        · right; exact h
      · rw [settledBlock_not_settled _ _ _ (bool_not_true hs)]
        left; rfl
    · rw [read_stuck_eq d i ms hr (bool_not_true hb)]
      left; rfl
  · left; exact (read_notready d i ms (bool_not_true hr)).1

theorem read_out_of_range (d : Hx711) (i : ReadInput) (ms : Nat)
    (hr : i.ready = true) (hb : i.bit25 = true) :
    ((d.read i ms).1.status.out_of_range = true ↔
      (signExtend i.raw = MAX_RAW ∨ signExtend i.raw = MIN_RAW)) := by
  rw [read_complete_eq d i ms hr hb, settledBlock_out_of_range]
  show decide (signExtend i.raw = MAX_RAW ∨ signExtend i.raw = MIN_RAW) = true ↔ _
  exact decide_eq_true_iff

theorem zeroStep_vr_le (d : Hx711) (data : Int) (ms : Nat)
    (hz : d.status.zeroing = false) (hvr : d.values_received ≤ ms)
    (hN : d.zeros_to_average < ms) :
    (d.zeroStep data ms).values_received + 1 ≤ ms := by
  rcases zeroStep_vr_cases d data ms with ⟨h, hc⟩ | ⟨h, _, _, _⟩
  · rw [h]
    rcases hc with hc | hc | hc
    · omega
    · rw [hz] at hc; cases hc
    · omega
  · rw [h]; omega

theorem read_vr_le (d : Hx711) (i : ReadInput) (ms : Nat)
    (hz : d.status.zeroing = false) (hvr : d.values_received ≤ ms)
    (hN : d.zeros_to_average < ms) :
    (d.read i ms).1.values_received ≤ ms := by
  by_cases hr : i.ready = true
  · by_cases hb : i.bit25 = true
    · rw [read_complete_eq d i ms hr hb]
      by_cases hs : (d.preZero i.raw).settled = true
      · rw [settledBlock_settled _ _ _ hs, (commitStep_preserves _ _).2.2.2.1]
        exact zeroStep_vr_le (d.preZero i.raw) (signExtend i.raw) ms hz hvr hN
      · rw [settledBlock_not_settled _ _ _ (bool_not_true hs)]
        exact hvr
    · rw [read_stuck_eq d i ms hr (bool_not_true hb)]
      exact hvr
  · rw [(read_notready d i ms (bool_not_true hr)).2.2.2.1]
    exact hvr

theorem settledBlock_accum (x : Hx711) (data : Int) (ms : Nat)
    (hs : x.settled = true) (hz : x.status.zeroing = true)
    (hv : x.values_received < x.zeros_to_average) :
    x.settledBlock data ms =
      { x with zeroing_sum := x.zeroing_sum + data,
               values_received := x.values_received + 1 } := by
  rw [settledBlock_settled x data ms hs, zeroStep_accum x data ms hv]
  apply commitStep_not_nominal
  exact isNominal_false_of_zeroing _ hz

theorem settledBlock_finish (x : Hx711) (data : Int) (ms : Nat)
    (hs : x.settled = true) (hz : x.status.zeroing = true)
    (hge : x.zeros_to_average ≤ x.values_received) (hN : 0 < x.zeros_to_average) :
    x.settledBlock data ms =
      ({ x with offset := pyRound ((x.zeroing_sum : Rat) / (x.zeros_to_average : Rat)),
                status := { x.status with zeroing := false },
                values_received := x.values_received + 1 } : Hx711).commitStep data := by
  rw [settledBlock_settled x data ms hs, zeroStep_finish x data ms hz hge hN]

theorem read_accum_step (d : Hx711) (i : ReadInput) (ms : Nat)
    (hs : d.settled = true) (hz : d.status.zeroing = true)
    (hr : i.ready = true) (hb : i.bit25 = true)
    (hv : d.values_received < d.zeros_to_average) :
    (d.read i ms).1.values_received = d.values_received + 1 ∧
    (d.read i ms).1.zeroing_sum = d.zeroing_sum + signExtend i.raw ∧
    (d.read i ms).1.offset = d.offset ∧
    (d.read i ms).1.status.zeroing = true ∧
    (d.read i ms).1.settled = true ∧
    (d.read i ms).1.zeros_to_average = d.zeros_to_average := by
  rw [read_complete_eq d i ms hr hb]
  rw [settledBlock_accum (d.preZero i.raw) (signExtend i.raw) ms hs hz hv]
  exact ⟨rfl, rfl, rfl, hz, hs, rfl⟩

theorem read_offset_step (d : Hx711) (i : ReadInput) (ms : Nat)
    (hs : d.settled = true) (hz : d.status.zeroing = true)
    (hr : i.ready = true) (hb : i.bit25 = true)
    (hge : d.zeros_to_average ≤ d.values_received) (hN : 0 < d.zeros_to_average) :
    (d.read i ms).1.offset = pyRound ((d.zeroing_sum : Rat) / (d.zeros_to_average : Rat)) ∧
    (d.read i ms).1.status.zeroing = false := by
  rw [read_complete_eq d i ms hr hb]
  rw [settledBlock_finish (d.preZero i.raw) (signExtend i.raw) ms hs hz hge hN]
  constructor
  · rw [(commitStep_preserves _ _).2.1]
    rfl
  · rw [commitStep_status]

theorem readSeq_nil (d : Hx711) (ms : Nat) : readSeq d [] ms = d := rfl

theorem readSeq_cons (d : Hx711) (i : ReadInput) (t : List ReadInput) (ms : Nat) :
    readSeq d (i :: t) ms = readSeq (d.read i ms).1 t ms := rfl

theorem readSeq_append (d : Hx711) (l₁ l₂ : List ReadInput) (ms : Nat) :
    readSeq d (l₁ ++ l₂) ms = readSeq (readSeq d l₁ ms) l₂ ms := by
  simp [readSeq, List.foldl_append]

theorem readSeq_accum (ms : Nat) (inps : List ReadInput) :
    ∀ d : Hx711, d.settled = true → d.status.zeroing = true →
      (∀ j ∈ inps, j.ready = true ∧ j.bit25 = true) →
      d.values_received + inps.length ≤ d.zeros_to_average →
      (readSeq d inps ms).values_received = d.values_received + inps.length ∧
      (readSeq d inps ms).zeroing_sum =
        d.zeroing_sum + ((inps.map fun j => signExtend j.raw).sum) ∧
      (readSeq d inps ms).offset = d.offset ∧
      (readSeq d inps ms).status.zeroing = true ∧
      (readSeq d inps ms).settled = true ∧
      (readSeq d inps ms).zeros_to_average = d.zeros_to_average := by
  induction inps with
  | nil =>
    intro d h1 h2 _ _
    exact ⟨by simp [readSeq], by simp [readSeq], rfl, h2, h1, rfl⟩
  | cons i t ih =>
    intro d hs hz hok hlen
    have hit := hok i (List.mem_cons_self i t)
    have hv : d.values_received < d.zeros_to_average := by
      simp only [List.length_cons] at hlen; omega
    obtain ⟨e1, e2, e3, e4, e5, e6⟩ := read_accum_step d i ms hs hz hit.1 hit.2 hv
    have hrec := ih ((d.read i ms).1) e5 e4
      (fun j hj => hok j (List.mem_cons_of_mem i hj))
      (by rw [e1, e6]; simp only [List.length_cons] at hlen; omega)
    obtain ⟨f1, f2, f3, f4, f5, f6⟩ := hrec
    rw [readSeq_cons]
    refine ⟨?_, ?_, ?_, f4, f5, ?_⟩
    · rw [f1, e1]; simp [List.length_cons]; omega
    · rw [f2, e2]; simp only [List.map_cons, List.sum_cons]; omega
    · rw [f3, e3]
    · rw [f6, e6]

theorem data_ready_configuration (d : Hx711) (p : Bool) :
    (d.data_ready p).1.configuration = d.configuration := by
  cases p
  · rw [data_ready_false_eq]; split_ifs <;> rfl
  · rfl

theorem wait_data_ready_configuration (obs : List Bool) :
    ∀ d : Hx711, (d.wait_data_ready obs).1.configuration = d.configuration := by
  induction obs with
  | nil => intro d; rfl
  | cons p ps ih =>
    intro d
    by_cases h : (d.data_ready p).2 = true
    · have he : d.wait_data_ready (p :: ps) = ((d.data_ready p).1, true) := by
        simp only [Hx711.wait_data_ready]
        rw [if_pos h]
      rw [he]
      exact data_ready_configuration d p
    · have he : d.wait_data_ready (p :: ps) = (d.data_ready p).1.wait_data_ready ps := by
        simp only [Hx711.wait_data_ready]
        rw [if_neg h]
      rw [he, ih]
      exact data_ready_configuration d p

theorem read_configuration (d : Hx711) (i : ReadInput) (ms : Nat) :
    (d.read i ms).1.configuration = d.configuration := by
  by_cases hr : i.ready = true
  · by_cases hb : i.bit25 = true
    · rw [read_complete_eq d i ms hr hb]
      by_cases hs : (d.preZero i.raw).settled = true
      · rw [settledBlock_settled _ _ _ hs, (commitStep_preserves _ _).1]
        exact (zeroStep_preserves (d.preZero i.raw) (signExtend i.raw) ms).1
      · rw [settledBlock_not_settled _ _ _ (bool_not_true hs)]
        rfl
    · rw [read_stuck_eq d i ms hr (bool_not_true hb)]
  · exact (read_notready d i ms (bool_not_true hr)).2.2.2.2.2.2.1

theorem set_gain_default_match_configuration (d : Hx711) (env : PulseEnv) (ms : Nat) :
    (match d.set_gain GAIN_128 env ms with
     | some r => r.1
     | none => d).configuration = GAIN_128 := by
  unfold Hx711.set_gain
  rw [if_neg (by simp [validate_gain, GAIN_128])]
  by_cases hc : GAIN_128 ≠ d.configuration
  · rw [if_pos hc]
    show ((({ d with configuration := GAIN_128 } : Hx711).wait_data_ready
        env.waitReadings).1.read env.readInput ms).1.configuration = GAIN_128
    rw [read_configuration, wait_data_ready_configuration]
  · rw [if_neg hc]
    simp only [ne_eq, not_not] at hc
    exact hc.symm

theorem power_up_configuration (d : Hx711) (env : PulseEnv) (ms : Nat) :
    (d.power_up env ms).configuration = GAIN_128 := by
  exact set_gain_default_match_configuration _ env ms

theorem power_down_configuration (d : Hx711) :
    d.power_down.configuration = d.configuration := rfl

theorem reset_configuration (d : Hx711) (env : PulseEnv) (ms : Nat) :
    (d.reset env ms).configuration = GAIN_128 :=
  power_up_configuration _ env ms

theorem shiftIn_lt (bits : List Bool) :
    ∀ data : Nat, shiftIn bits data < (data + 1) * 2 ^ bits.length := by
  induction bits with
  | nil => intro data; simp [shiftIn]
  | cons b bs ih =>
    intro data
    have h := ih (2 * data + cond b 1 0)
    have hb : (2 * data + cond b 1 0) + 1 ≤ 2 * (data + 1) := by
      cases b <;> simp <;> omega
    calc shiftIn (b :: bs) data = shiftIn bs (2 * data + cond b 1 0) := rfl
      _ < (2 * data + cond b 1 0 + 1) * 2 ^ bs.length := h
      _ ≤ (2 * (data + 1)) * 2 ^ bs.length := Nat.mul_le_mul_right _ hb
      _ = (data + 1) * 2 ^ (b :: bs).length := by
          simp [List.length_cons, pow_succ]
          ring

/-- C7: for every 24-bit raw accumulator value shifted in by read() (any
value produced by the 24-step shift loop, hence any raw with 0 <= raw <
2^24), the sign-extension step yields raw itself if raw <= 0x7fffff and
raw - 0x1000000 if raw > 0x7fffff, and the result always lies in the
interval [-0x800000, 0x7fffff]. -/
theorem c7_sign_extension (bits : List Bool) (hlen : bits.length = 24) :
    (shiftIn bits 0 ≤ 0x7fffff → signExtend (shiftIn bits 0) = (shiftIn bits 0 : Int)) ∧
    (0x7fffff < shiftIn bits 0 → signExtend (shiftIn bits 0) = (shiftIn bits 0 : Int) - 0x1000000) ∧
    MIN_RAW ≤ signExtend (shiftIn bits 0) ∧ signExtend (shiftIn bits 0) ≤ MAX_RAW := by
  have h := shiftIn_lt bits 0
  rw [hlen] at h
  norm_num at h
  unfold signExtend MAX_RAW MIN_RAW EXTEND_SIGN
  refine ⟨?_, ?_, ?_, ?_⟩ <;> split_ifs <;> omega

/-- Witness for C7 at the concrete bit string of 24 zero bits. -/
theorem c7_witness :
    (List.replicate 24 false).length = 24 ∧
    ((shiftIn (List.replicate 24 false) 0 ≤ 0x7fffff →
        signExtend (shiftIn (List.replicate 24 false) 0) =
          (shiftIn (List.replicate 24 false) 0 : Int)) ∧
      (0x7fffff < shiftIn (List.replicate 24 false) 0 →
        signExtend (shiftIn (List.replicate 24 false) 0) =
          (shiftIn (List.replicate 24 false) 0 : Int) - 0x1000000) ∧
      MIN_RAW ≤ signExtend (shiftIn (List.replicate 24 false) 0) ∧
      signExtend (shiftIn (List.replicate 24 false) 0) ≤ MAX_RAW) :=
  ⟨by decide, c7_sign_extension (List.replicate 24 false) (by decide)⟩

/-- C3 (code bug demonstration): on a read cycle that completes nominally
(data ready, 25th pulse high, settled, status nominal) the Python function
falls off the end and returns None, even though it commits the new value
gain * (count - offset) = 100 to the value field.  This contradicts the
claim (and the function docstring) that read() always returns the
measurement value. -/
theorem c3_read_completed_returns_none :
    (Hx711.read sampleSettled ⟨true, 100, true⟩ 1000).2.1 = none ∧
    (Hx711.read sampleSettled ⟨true, 100, true⟩ 1000).1.value = 100 ∧
    (Hx711.read sampleSettled ⟨true, 100, true⟩ 1000).1.status.isNominal = true := by
  refine ⟨by decide, ?_, by decide⟩
  norm_num [Hx711.read, Hx711.data_ready, discard_timer, Hx711.settled, Hx711.powered_up,
    Status.isNominal, signExtend, Hx711.weighted_average, sampleSettled,
    Hx711.settledBlock, Hx711.zeroStep, Hx711.commitStep, MAX_RAW, MIN_RAW, EXTEND_SIGN]

/-- C4: read() commits a new value only when the status bitset is exactly
nominal at the commit point.  Since the commit is the last state change of a
cycle, the status at the commit point is the status read() returns with;
whenever any flag is set there, the value field is left unchanged. -/
theorem c4_commit_only_nominal (d : Hx711) (i : ReadInput) (ms : Nat)
    (h : (d.read i ms).1.status.isNominal = false) :
    (d.read i ms).1.value = d.value := by
  rcases read_value_commit d i ms with hv | hn
  · exact hv
  · rw [hn] at h; cases h

/-- Witness for C4: a settled-but-not-settled-flagged driver performs a full
cycle, ends with a non-nominal status, and its value is unchanged. -/
theorem c4_witness :
    ((Hx711.read { sampleSettled with status := { not_settled := true } }
        ⟨true, 3, true⟩ 50).1.status.isNominal = false) ∧
    (Hx711.read { sampleSettled with status := { not_settled := true } }
        ⟨true, 3, true⟩ 50).1.value =
      ({ sampleSettled with status := { not_settled := true } } : Hx711).value :=
  ⟨by decide, c4_commit_only_nominal _ _ _ (by decide)⟩

/-- C1 counterexample: with zeros_to_average = 1, after zero_now() and
exactly 1 settled read (raw value 5) the zeroing flag is still set and the
offset is still 0, not round(mean) = 5 as the claim states.  The offset
update and the flag clear happen only on the following read. -/
theorem c1_counterexample :
    ({ sampleSettled with zeros_to_average := 1 } : Hx711).settled = true ∧
    ({ sampleSettled with zeros_to_average := 1 } : Hx711).zeros_to_average = 1 ∧
    (readSeq (Hx711.zero_now { sampleSettled with zeros_to_average := 1 })
        [⟨true, 5, true⟩] 100).status.zeroing = true ∧
    (readSeq (Hx711.zero_now { sampleSettled with zeros_to_average := 1 })
        [⟨true, 5, true⟩] 100).offset = 0 := by
  refine ⟨by decide, by decide, by decide, by decide⟩

/-- C1 (amended): after zero_now(), the first zeros_to_average settled
reads r1..rN only accumulate and leave zeroing set; the offset becomes
round(mean(r1..rN)) and zeroing is cleared one read later, on the
(zeros_to_average + 1)-th settled read.  After any k <= zeros_to_average
settled reads the zeroing flag is still set. -/
theorem c1_zeroing_offset_amended (d : Hx711) (ms : Nat) (inps : List ReadInput)
    (i : ReadInput) (hs : d.settled = true) (hN : 0 < d.zeros_to_average)
    (hlen : inps.length = d.zeros_to_average)
    (hok : ∀ j ∈ inps, j.ready = true ∧ j.bit25 = true)
    (hir : i.ready = true) (hib : i.bit25 = true) :
    (readSeq d.zero_now (inps ++ [i]) ms).offset =
      pyRound ((((inps.map fun j => signExtend j.raw).sum : Int) : Rat) /
        (d.zeros_to_average : Rat)) ∧
    (readSeq d.zero_now (inps ++ [i]) ms).status.zeroing = false ∧
    ∀ k, k ≤ d.zeros_to_average →
      (readSeq d.zero_now (inps.take k) ms).status.zeroing = true := by
  have hs0 : d.zero_now.settled = true := hs
  have hz0 : d.zero_now.status.zeroing = true := rfl
  obtain ⟨a1, a2, a3, a4, a5, a6⟩ :=
    readSeq_accum ms inps d.zero_now hs0 hz0 hok
      (by simp [Hx711.zero_now, hlen])
  have hge : (readSeq d.zero_now inps ms).zeros_to_average ≤
      (readSeq d.zero_now inps ms).values_received := by
    rw [a1, a6]
    simp [Hx711.zero_now, hlen]
  have hNm : 0 < (readSeq d.zero_now inps ms).zeros_to_average := by
    rw [a6]; exact hN
  have hstep := read_offset_step (readSeq d.zero_now inps ms) i ms a5 a4 hir hib hge hNm
  refine ⟨?_, ?_, ?_⟩
  · rw [readSeq_append, readSeq_cons, readSeq_nil, hstep.1, a2, a6]
    simp [Hx711.zero_now]
  · rw [readSeq_append, readSeq_cons, readSeq_nil]
    exact hstep.2
  · intro k hk
    obtain ⟨b1, b2, b3, b4, b5, b6⟩ :=
      readSeq_accum ms (inps.take k) d.zero_now hs0 hz0
        (fun j hj => hok j (List.mem_of_mem_take hj))
        (by simp [Hx711.zero_now, List.length_take, hlen])
    exact b4

/-- Witness for C1 at zeros_to_average = 1 with reads 5 then 7. -/
theorem c1_witness :
    ({ sampleSettled with zeros_to_average := 1 } : Hx711).settled = true ∧
    (readSeq (Hx711.zero_now { sampleSettled with zeros_to_average := 1 })
        ([⟨true, 5, true⟩] ++ [⟨true, 7, true⟩]) 100).offset =
      pyRound (((([(⟨true, 5, true⟩ : ReadInput)].map fun j => signExtend j.raw).sum : Int) : Rat) /
        (({ sampleSettled with zeros_to_average := 1 } : Hx711).zeros_to_average : Rat)) ∧
    (readSeq (Hx711.zero_now { sampleSettled with zeros_to_average := 1 })
        ([⟨true, 5, true⟩] ++ [⟨true, 7, true⟩]) 100).status.zeroing = false := by
  have h := c1_zeroing_offset_amended { sampleSettled with zeros_to_average := 1 } 100
    [⟨true, 5, true⟩] ⟨true, 7, true⟩ (by decide) (by decide) (by decide)
    (by simp) (by decide) (by decide)
  exact ⟨by decide, h.1, h.2.1⟩

/-- C2 counterexample: a driver whose configuration is GAIN_64 on entry to
power_up() leaves power_up() with configuration GAIN_128, because power_up
calls set_gain() with its default argument rather than the current
configuration. -/
theorem c2_counterexample :
    ({ sampleSettled with configuration := GAIN_64 } : Hx711).configuration = GAIN_64 ∧
    (Hx711.power_up { sampleSettled with configuration := GAIN_64 }
        ⟨[true], ⟨true, 0, true⟩⟩ 1000).configuration = GAIN_128 ∧
    GAIN_64 ≠ GAIN_128 := by
  refine ⟨by decide, by decide, by decide⟩

/-- C2 (amended): power_up() applies the default configuration, not the
current one: after power_up() the configuration always equals GAIN_128
(matching the chip's own power-on default), so it is unchanged exactly when
it was already GAIN_128. -/
theorem c2_power_up_default (d : Hx711) (env : PulseEnv) (ms : Nat) :
    (d.power_up env ms).configuration = GAIN_128 ∧
    ((d.power_up env ms).configuration = d.configuration ↔ d.configuration = GAIN_128) := by
  have h := power_up_configuration d env ms
  refine ⟨h, ?_⟩
  rw [h]
  exact eq_comm

/-- C5 (code bug demonstration): discard_timer's `timer = None` assignment
rebinds only its local parameter, so the data_ready_timer attribute is never
reset to None after the first timer is created.  First stuck-high period:
the timer is armed and its expiry sets data-ready-timeout (first conjunct);
a ready observation then clears the flag.  Second stuck-high period while
still settled: the attribute is still not None, so data_ready() does not
re-arm (timer field non-None, not armed), no expiry can occur, and the
data-ready-timeout flag never becomes set again, contradicting the claim
that every such period sets it. -/
theorem c5_timeout_timer_never_rearmed :
    (Hx711.runDR sampleSettled [.observe false, .elapsed]).status.data_ready_timeout = true ∧
    (Hx711.runDR sampleSettled
        [.observe false, .elapsed, .observe true]).status.data_ready_timeout = false ∧
    (Hx711.runDR sampleSettled
        [.observe false, .elapsed, .observe true, .observe false]).settled = true ∧
    (Hx711.runDR sampleSettled
        [.observe false, .elapsed, .observe true, .observe false]).data_ready_timer = true ∧
    (Hx711.runDR sampleSettled
        [.observe false, .elapsed, .observe true, .observe false]).data_ready_timer_armed = false ∧
    (Hx711.runDR sampleSettled
        [.observe false, .elapsed, .observe true, .observe false,
          .elapsed]).status.data_ready_timeout = false := by
  refine ⟨by decide, by decide, by decide, by decide, by decide, by decide⟩

/-- C6: when the 25th clock pulse samples the data line low, read() sets
the stuck-low flag, discards the 24-bit accumulator (offset, zeroing sum,
counter and zeroing flag all unchanged), leaves the value field unchanged,
returns the previous value, and issues exactly 25 clock pulses. -/
theorem c6_stuck_low (d : Hx711) (i : ReadInput) (ms : Nat)
    (hr : i.ready = true) (hb : i.bit25 = false) :
    (d.read i ms).1.status.dout_stuck_low = true ∧
    (d.read i ms).1.value = d.value ∧
    (d.read i ms).1.offset = d.offset ∧
    (d.read i ms).1.zeroing_sum = d.zeroing_sum ∧
    (d.read i ms).1.values_received = d.values_received ∧
    (d.read i ms).1.status.zeroing = d.status.zeroing ∧
    (d.read i ms).2.1 = some d.value ∧
    (d.read i ms).2.2 = 24 + 1 := by
  rw [read_stuck_eq d i ms hr hb]
  exact ⟨rfl, rfl, rfl, rfl, rfl, rfl, rfl, rfl⟩

/-- Witness for C6 at a concrete settled driver and raw value 77. -/
theorem c6_witness :
    ((⟨true, 77, false⟩ : ReadInput).ready = true) ∧
    ((⟨true, 77, false⟩ : ReadInput).bit25 = false) ∧
    ((Hx711.read sampleSettled ⟨true, 77, false⟩ 9).1.status.dout_stuck_low = true ∧
      (Hx711.read sampleSettled ⟨true, 77, false⟩ 9).1.value = sampleSettled.value ∧
      (Hx711.read sampleSettled ⟨true, 77, false⟩ 9).1.offset = sampleSettled.offset ∧
      (Hx711.read sampleSettled ⟨true, 77, false⟩ 9).1.zeroing_sum = sampleSettled.zeroing_sum ∧
      (Hx711.read sampleSettled ⟨true, 77, false⟩ 9).1.values_received =
        sampleSettled.values_received ∧
      (Hx711.read sampleSettled ⟨true, 77, false⟩ 9).1.status.zeroing =
        sampleSettled.status.zeroing ∧
      (Hx711.read sampleSettled ⟨true, 77, false⟩ 9).2.1 = some sampleSettled.value ∧
      (Hx711.read sampleSettled ⟨true, 77, false⟩ 9).2.2 = 24 + 1) :=
  ⟨rfl, rfl, c6_stuck_low sampleSettled ⟨true, 77, false⟩ 9 (by decide) (by decide)⟩

/-- C8: on every read cycle that reaches the sign-extension step (data
ready and 25th pulse high), the out-of-range flag after the cycle is set iff
the sign-extended raw value equals exactly MIN_RAW or MAX_RAW, and is
cleared otherwise. -/
theorem c8_out_of_range_iff (d : Hx711) (i : ReadInput) (ms : Nat)
    (hr : i.ready = true) (hb : i.bit25 = true) :
    ((d.read i ms).1.status.out_of_range = true ↔
      (signExtend i.raw = MAX_RAW ∨ signExtend i.raw = MIN_RAW)) :=
  read_out_of_range d i ms hr hb

/-- Witness for C8 at the positive rail raw = 0x7fffff. -/
theorem c8_witness :
    ((Hx711.read sampleSettled ⟨true, 0x7fffff, true⟩ 60).1.status.out_of_range = true ↔
      (signExtend 0x7fffff = MAX_RAW ∨ signExtend 0x7fffff = MIN_RAW)) :=
  c8_out_of_range_iff sampleSettled ⟨true, 0x7fffff, true⟩ 60 (by decide) (by decide)

/-- C9 counterexample: a settled driver with counter = target = 1 performs
a settled read and its counter becomes 2, strictly past the target, so the
counter does not saturate at the target count. -/
theorem c9_counterexample :
    ({ sampleSettled with zeros_to_average := 1, values_received := 1 } : Hx711).values_received ≤
      ({ sampleSettled with zeros_to_average := 1, values_received := 1 } : Hx711).zeros_to_average ∧
    ({ sampleSettled with zeros_to_average := 1, values_received := 1 } : Hx711).settled = true ∧
    (Hx711.read { sampleSettled with zeros_to_average := 1, values_received := 1 }
        ⟨true, 0, true⟩ 1000).1.values_received = 2 := by
  refine ⟨by decide, by decide, by decide⟩

/-- C9 (amended): the counter is not saturated at the target count (see
the counterexample); it is instead clamped via sys.maxsize: whenever zeroing
is inactive, the counter is at most maxsize and the target is below maxsize,
the counter after any read is still at most maxsize (on reaching maxsize it
is reset to the target before the increment). -/
theorem c9_counter_clamped (d : Hx711) (i : ReadInput) (ms : Nat)
    (hz : d.status.zeroing = false) (hvr : d.values_received ≤ ms)
    (hN : d.zeros_to_average < ms) :
    (d.read i ms).1.values_received ≤ ms :=
  read_vr_le d i ms hz hvr hN

/-- Witness for C9 at a concrete settled driver with maxsize 100. -/
theorem c9_witness :
    sampleSettled.status.zeroing = false ∧
    sampleSettled.values_received ≤ 100 ∧
    sampleSettled.zeros_to_average < 100 ∧
    (Hx711.read sampleSettled ⟨true, 0, true⟩ 100).1.values_received ≤ 100 :=
  ⟨by decide, by decide, by decide,
    c9_counter_clamped sampleSettled ⟨true, 0, true⟩ 100 (by decide) (by decide) (by decide)⟩

/-- C10: constructing a driver with any legal gain code only validates the
argument and then ignores it; the constructor sets configuration to GAIN_128
and reset()'s power_up() calls set_gain() with the default, so after
construction the configuration equals GAIN_128 for every legal code. -/
theorem c10_constructor_ignores_gain (g : Nat) (env : PulseEnv) (ms : Nat)
    (h : validate_gain g = true) :
    ∃ d, Hx711.init g env ms = some d ∧ d.configuration = GAIN_128 := by
  unfold Hx711.init
  rw [if_neg (by simp [h])]
  refine ⟨_, rfl, ?_⟩
  dsimp only
  exact reset_configuration _ env ms

/-- Witness for C10 at the non-default legal code GAIN_64. -/
theorem c10_witness :
    validate_gain GAIN_64 = true ∧
    ∃ d, Hx711.init GAIN_64 ⟨[true], ⟨true, 0, true⟩⟩ 1000 = some d ∧
      d.configuration = GAIN_128 :=
  ⟨by decide, c10_constructor_ignores_gain GAIN_64 ⟨[true], ⟨true, 0, true⟩⟩ 1000 (by decide)⟩
